import Mathlib

/-!
# Bastion Codex — verification of the snapshot / delta / brief core

A shallow embedding of the historical-snapshot, delta and weekly-brief core of
`src/orchestrator/ti_run.py`, together with theorems checking the design
specification's claims against it.

Modelling conventions:
* Python dictionaries read with `.get(key, default)` become `Option`-valued
  fields / association lists; `.get` defaulting becomes `Option.getD`.
* Python ints are `Int`; percentage values (Python floats combined by exact
  field arithmetic) are `ℚ`.
* The filesystem areas the code touches (`data/derived`, `data/history`,
  export destinations) become explicit state records threaded through the
  functions; `datetime.now(...)` becomes an explicit `today` / timestamp
  argument.
* Python `raise` becomes an `Except` result carried next to the mutated
  state (side effects performed before the raise stay visible, exactly as
  in the source).
-/

namespace BastionCodex

/-- The fixed severity bucket keys, in the order the code iterates them. -/
def severityKeys : List String := ["critical", "high", "medium", "low", "unknown"]

/-- A 7-day trend summary as the JSON dictionary read by `compute_deltas`
(ti_run.py lines 264-308): `total_items` and `by_severity` may each be absent
(the code reads both with `.get` and a default), and `by_severity` is a
partial mapping from severity name to count, modelled as an association
list. -/
structure TrendSummaryDict where
  total_items : Option Int
  by_severity : Option (List (String × Int))
deriving Repr, DecidableEq

/-- `pct_change(new, old)` (ti_run.py lines 258-261): `None` when `old == 0`,
otherwise `((new - old) / old) * 100.0`. -/
def pct_change (new old : Int) : Option ℚ :=
  if old = 0 then none
  else some (((new : ℚ) - (old : ℚ)) / (old : ℚ) * 100)

/-- One per-metric record of the delta dictionary produced by
`compute_deltas`: `{"old": .., "new": .., "delta": .., "pct": ..}`. -/
structure DeltaEntry where
  old : Int
  new : Int
  delta : Int
  pct : Option ℚ
deriving Repr, DecidableEq

/-- The delta dictionary produced by `compute_deltas`: one entry for
`"total"` and one per severity bucket. -/
structure Delta where
  total : DeltaEntry
  critical : DeltaEntry
  high : DeltaEntry
  medium : DeltaEntry
  low : DeltaEntry
  unknown : DeltaEntry
deriving Repr, DecidableEq

/-- The helper `sev(d, key)` inside `compute_deltas` (ti_run.py lines
268-269): `int(d.get("by_severity", {}).get(key, 0))`. -/
def sevLookup (d : TrendSummaryDict) (key : String) : Int :=
  ((d.by_severity.getD []).lookup key).getD 0

/-- One severity bucket of the `compute_deltas` output: the code first stores
`old`/`new` (lines 281-300) and then fills `delta` and `pct` in the final loop
(lines 304-306). -/
def sevEntry (prev cur : TrendSummaryDict) (key : String) : DeltaEntry :=
  { old := sevLookup prev key,
    new := sevLookup cur key,
    delta := sevLookup cur key - sevLookup prev key,
    pct := pct_change (sevLookup cur key) (sevLookup prev key) }

/-- `compute_deltas(prev_7d, cur_7d)` (ti_run.py lines 264-308). -/
def compute_deltas (prev_7d cur_7d : TrendSummaryDict) : Delta :=
  { total :=
      { old := prev_7d.total_items.getD 0,
        new := cur_7d.total_items.getD 0,
        delta := cur_7d.total_items.getD 0 - prev_7d.total_items.getD 0,
        pct := pct_change (cur_7d.total_items.getD 0) (prev_7d.total_items.getD 0) },
    critical := sevEntry prev_7d cur_7d "critical",
    high := sevEntry prev_7d cur_7d "high",
    medium := sevEntry prev_7d cur_7d "medium",
    low := sevEntry prev_7d cur_7d "low",
    unknown := sevEntry prev_7d cur_7d "unknown" }

/-- The six metric entries of a delta, in the order total, critical, high,
medium, low, unknown. -/
def Delta.entries (d : Delta) : List DeltaEntry :=
  [d.total, d.critical, d.high, d.medium, d.low, d.unknown]

theorem pct_change_eq_none_iff (new old : Int) :
    pct_change new old = none ↔ old = 0 := by
  unfold pct_change
  split <;> simp_all

theorem pct_change_of_ne (new old : Int) (h : old ≠ 0) :
    pct_change new old = some (((new : ℚ) - (old : ℚ)) / (old : ℚ) * 100) := by
  unfold pct_change
  simp [h]

/-- C1: for every pair of inputs to `compute_deltas` and each of the six
metrics (total plus the five severity buckets), the resulting record satisfies
`delta = new - old`, `pct` is null iff `old = 0` (including when `new = 0`),
and otherwise `pct = (new - old) / old * 100`. -/
theorem compute_deltas_entry_invariant (prev cur : TrendSummaryDict) :
    ∀ e ∈ (compute_deltas prev cur).entries,
      e.delta = e.new - e.old ∧
      (e.pct = none ↔ e.old = 0) ∧
      (e.old ≠ 0 → e.pct = some (((e.new : ℚ) - (e.old : ℚ)) / (e.old : ℚ) * 100)) := by
  intro e he
  simp only [Delta.entries, compute_deltas, sevEntry, List.mem_cons,
    List.mem_singleton, List.not_mem_nil, or_false] at he
  rcases he with rfl | rfl | rfl | rfl | rfl | rfl <;>
    refine ⟨rfl, pct_change_eq_none_iff _ _, fun h => pct_change_of_ne _ _ h⟩

/-- Witness for C1 at a concrete input: previous total 100, current total 150
gives delta 50 and pct 50%. -/
theorem compute_deltas_entry_invariant_witness :
    ((compute_deltas ⟨some 100, none⟩ ⟨some 150, none⟩).total.delta =
        (compute_deltas ⟨some 100, none⟩ ⟨some 150, none⟩).total.new -
          (compute_deltas ⟨some 100, none⟩ ⟨some 150, none⟩).total.old ∧
      ((compute_deltas ⟨some 100, none⟩ ⟨some 150, none⟩).total.pct = none ↔
        (compute_deltas ⟨some 100, none⟩ ⟨some 150, none⟩).total.old = 0) ∧
      ((compute_deltas ⟨some 100, none⟩ ⟨some 150, none⟩).total.old ≠ 0 →
        (compute_deltas ⟨some 100, none⟩ ⟨some 150, none⟩).total.pct =
          some ((((compute_deltas ⟨some 100, none⟩ ⟨some 150, none⟩).total.new : ℚ) -
              ((compute_deltas ⟨some 100, none⟩ ⟨some 150, none⟩).total.old : ℚ)) /
              ((compute_deltas ⟨some 100, none⟩ ⟨some 150, none⟩).total.old : ℚ) * 100))) :=
  compute_deltas_entry_invariant ⟨some 100, none⟩ ⟨some 150, none⟩ _
    (List.mem_cons_self _ _)

/-- C10: `compute_deltas` is total over partial dictionary inputs: a missing
`total_items` key is treated as 0, a missing `by_severity` mapping defaults
every bucket to 0, and a partial `by_severity` mapping defaults each absent
bucket to 0, on either argument. -/
theorem compute_deltas_defaults (prev cur : TrendSummaryDict) :
    (prev.total_items = none → (compute_deltas prev cur).total.old = 0) ∧
    (cur.total_items = none → (compute_deltas prev cur).total.new = 0) ∧
    (prev.by_severity = none →
      (compute_deltas prev cur).critical.old = 0 ∧
      (compute_deltas prev cur).high.old = 0 ∧
      (compute_deltas prev cur).medium.old = 0 ∧
      (compute_deltas prev cur).low.old = 0 ∧
      (compute_deltas prev cur).unknown.old = 0) ∧
    (cur.by_severity = none →
      (compute_deltas prev cur).critical.new = 0 ∧
      (compute_deltas prev cur).high.new = 0 ∧
      (compute_deltas prev cur).medium.new = 0 ∧
      (compute_deltas prev cur).low.new = 0 ∧
      (compute_deltas prev cur).unknown.new = 0) ∧
    (∀ bs, prev.by_severity = some bs →
      (bs.lookup "critical" = none → (compute_deltas prev cur).critical.old = 0) ∧
      (bs.lookup "high" = none → (compute_deltas prev cur).high.old = 0) ∧
      (bs.lookup "medium" = none → (compute_deltas prev cur).medium.old = 0) ∧
      (bs.lookup "low" = none → (compute_deltas prev cur).low.old = 0) ∧
      (bs.lookup "unknown" = none → (compute_deltas prev cur).unknown.old = 0)) ∧
    (∀ bs, cur.by_severity = some bs →
      (bs.lookup "critical" = none → (compute_deltas prev cur).critical.new = 0) ∧
      (bs.lookup "high" = none → (compute_deltas prev cur).high.new = 0) ∧
      (bs.lookup "medium" = none → (compute_deltas prev cur).medium.new = 0) ∧
      (bs.lookup "low" = none → (compute_deltas prev cur).low.new = 0) ∧
      (bs.lookup "unknown" = none → (compute_deltas prev cur).unknown.new = 0)) := by
  refine ⟨fun h => ?_, fun h => ?_, fun h => ?_, fun h => ?_,
    fun bs h => ⟨fun h2 => ?_, fun h2 => ?_, fun h2 => ?_, fun h2 => ?_, fun h2 => ?_⟩,
    fun bs h => ⟨fun h2 => ?_, fun h2 => ?_, fun h2 => ?_, fun h2 => ?_, fun h2 => ?_⟩⟩ <;>
    simp [compute_deltas, sevEntry, sevLookup, h] <;> simp [h2]

/-- Witness for C10 at concrete inputs: both dictionaries empty (every key
missing) give 0 everywhere. -/
theorem compute_deltas_defaults_witness :
    (compute_deltas ⟨none, none⟩ ⟨none, some [("high", 7)]⟩).total.old = 0 ∧
    (compute_deltas ⟨none, none⟩ ⟨none, some [("high", 7)]⟩).critical.old = 0 ∧
    (compute_deltas ⟨none, none⟩ ⟨none, some [("high", 7)]⟩).critical.new = 0 :=
  ⟨(compute_deltas_defaults ⟨none, none⟩ ⟨none, some [("high", 7)]⟩).1 rfl,
    ((compute_deltas_defaults ⟨none, none⟩ ⟨none, some [("high", 7)]⟩).2.2.1 rfl).1,
    (((compute_deltas_defaults ⟨none, none⟩ ⟨none, some [("high", 7)]⟩).2.2.2.2.2
        [("high", 7)] rfl).1 (by decide))⟩

/-! ## Stable sorting

CPython's `sorted` (and `list.sort`) is a stable sort; with `reverse=True` it
is a stable descending sort (equal keys keep their original relative order).
We model it by insertion: each element, taken in original order, is inserted
into the accumulator immediately before the first element it must strictly
precede, hence after every earlier element it ties with. -/

/-- Insert `x` into `l` immediately before the first element `y` with
`gt x y = true` (`gt a b` = "a must come strictly before b"). -/
def insBy {α : Type} (gt : α → α → Bool) (x : α) : List α → List α
  | [] => [x]
  | y :: ys => if gt x y then x :: y :: ys else y :: insBy gt x ys

/-- Stable sort: `a` is placed before `b` whenever `gt a b = true`; pairs
related by `gt` in neither direction keep their original relative order. -/
def sortBy {α : Type} (gt : α → α → Bool) (l : List α) : List α :=
  l.foldl (fun acc x => insBy gt x acc) []

theorem insBy_perm {α : Type} (gt : α → α → Bool) (x : α) (l : List α) :
    (insBy gt x l).Perm (x :: l) := by
  induction l with
  | nil => exact List.Perm.refl _
  | cons y ys ih =>
    simp only [insBy]
    split
    · exact List.Perm.refl _
    · exact (ih.cons y).trans (List.Perm.swap x y ys)

theorem sortBy_perm_aux {α : Type} (gt : α → α → Bool) :
    ∀ (l acc : List α), (l.foldl (fun acc x => insBy gt x acc) acc).Perm (acc ++ l) := by
  intro l
  induction l with
  | nil => intro acc; simp
  | cons y ys ih =>
    intro acc
    simp only [List.foldl_cons]
    exact (ih _).trans (((insBy_perm gt y acc).append_right ys).trans
      List.perm_middle.symm)

theorem sortBy_perm {α : Type} (gt : α → α → Bool) (l : List α) :
    (sortBy gt l).Perm l := by
  simpa using sortBy_perm_aux gt l []

theorem insBy_pairwise {α : Type} {gt : α → α → Bool}
    (htrans : ∀ a b c, gt a b = true → gt b c = true → gt a c = true)
    (hasymm : ∀ a b, gt a b = true → gt b a = false)
    (x : α) {l : List α} (hl : l.Pairwise fun a b => gt b a = false) :
    (insBy gt x l).Pairwise fun a b => gt b a = false := by
  induction l with
  | nil => simp [insBy]
  | cons y ys ih =>
    rcases List.pairwise_cons.1 hl with ⟨hy, hys⟩
    simp only [insBy]
    split
    · rename_i hxy
      refine List.pairwise_cons.2 ⟨?_, hl⟩
      intro z hz
      rcases List.mem_cons.1 hz with rfl | hz
      · exact hasymm x z hxy
      · cases hzx : gt z x with
        | false => rfl
        | true =>
          have h2 := htrans z x y hzx hxy
          rw [hy z hz] at h2
          exact absurd h2 Bool.false_ne_true
    · rename_i hxy
      refine List.pairwise_cons.2 ⟨?_, ih hys⟩
      intro z hz
      rcases List.mem_cons.1 ((insBy_perm gt x ys).mem_iff.1 hz) with rfl | hz
      · simpa using hxy
      · exact hy z hz

theorem sortBy_pairwise {α : Type} {gt : α → α → Bool}
    (htrans : ∀ a b c, gt a b = true → gt b c = true → gt a c = true)
    (hasymm : ∀ a b, gt a b = true → gt b a = false)
    (l : List α) :
    (sortBy gt l).Pairwise fun a b => gt b a = false := by
  suffices h : ∀ (l acc : List α), acc.Pairwise (fun a b => gt b a = false) →
      (l.foldl (fun acc x => insBy gt x acc) acc).Pairwise
        (fun a b => gt b a = false) from h l [] (by simp)
  intro l
  induction l with
  | nil => intro acc hacc; simpa using hacc
  | cons y ys ih =>
    intro acc hacc
    simp only [List.foldl_cons]
    exact ih _ (insBy_pairwise htrans hasymm y hacc)

theorem insBy_filter_neg {α : Type} (gt : α → α → Bool) (p : α → Bool)
    (x : α) (l : List α) (hx : p x = false) :
    (insBy gt x l).filter p = l.filter p := by
  induction l with
  | nil => simp [insBy, hx]
  | cons y ys ih =>
    simp only [insBy]
    split
    · simp [List.filter_cons, hx]
    · cases hpy : p y <;> simp [List.filter_cons, hpy, ih]

theorem insBy_filter_pos {α : Type} {gt : α → α → Bool} (p : α → Bool)
    (hntrans : ∀ a b c, gt a b = false → gt b c = false → gt a c = false)
    (hp : ∀ a b, p a = true → p b = true → gt a b = false)
    (x : α) (hx : p x = true) :
    ∀ {l : List α}, l.Pairwise (fun a b => gt b a = false) →
      (insBy gt x l).filter p = l.filter p ++ [x] := by
  intro l
  induction l with
  | nil => intro _; simp [insBy, hx]
  | cons y ys ih =>
    intro hl
    rcases List.pairwise_cons.1 hl with ⟨hy, hys⟩
    simp only [insBy]
    split
    · rename_i hxy
      have hnil : (y :: ys).filter p = [] := by
        refine List.filter_eq_nil_iff.2 ?_
        intro z hz hpz
        have hxz := hp x z hx hpz
        rcases List.mem_cons.1 hz with rfl | hz
        · rw [hxy] at hxz; exact Bool.noConfusion hxz
        · have h2 := hntrans x z y hxz (hy z hz)
          rw [hxy] at h2
          exact Bool.noConfusion h2
      rw [List.filter_cons_of_pos hx, hnil]
      simp
    · rw [List.filter_cons]
      cases hpy : p y <;>
        simp [List.filter_cons, hpy, ih hys]

theorem sortBy_filter {α : Type} {gt : α → α → Bool} (p : α → Bool)
    (htrans : ∀ a b c, gt a b = true → gt b c = true → gt a c = true)
    (hasymm : ∀ a b, gt a b = true → gt b a = false)
    (hntrans : ∀ a b c, gt a b = false → gt b c = false → gt a c = false)
    (hp : ∀ a b, p a = true → p b = true → gt a b = false)
    (l : List α) :
    (sortBy gt l).filter p = l.filter p := by
  suffices h : ∀ (l acc : List α), acc.Pairwise (fun a b => gt b a = false) →
      (l.foldl (fun acc x => insBy gt x acc) acc).filter p =
        acc.filter p ++ l.filter p by
    simpa using h l [] (by simp)
  intro l
  induction l with
  | nil => intro acc hacc; simp
  | cons y ys ih =>
    intro acc hacc
    simp only [List.foldl_cons]
    rw [ih _ (insBy_pairwise htrans hasymm y hacc)]
    cases hpy : p y
    · rw [insBy_filter_neg gt p y acc hpy]
      simp [List.filter_cons, hpy]
    · rw [insBy_filter_pos p hntrans hp y hpy hacc]
      simp [List.filter_cons, hpy]

/-! ## String comparison

Python compares `str` values lexicographically on code points; snapshot
directory names (ISO dates) are sorted with exactly this order. We embed it
as an executable comparison on the character list and bridge it to the
standard linear order on `String`. -/

/-- Lexicographic strict comparison of two character sequences, as Python
compares strings. -/
def charListLt : List Char → List Char → Bool
  | [], [] => false
  | [], _ :: _ => true
  | _ :: _, [] => false
  | c :: cs, d :: ds =>
    if c < d then true else if d < c then false else charListLt cs ds

/-- Python's `a < b` on strings. -/
def strLt (a b : String) : Bool := charListLt a.data b.data

theorem charListLt_iff_Lex :
    ∀ (l1 l2 : List Char), charListLt l1 l2 = true ↔ List.Lex (· < ·) l1 l2
  | [], [] => by
    simp only [charListLt]
    exact iff_of_false (by simp) (fun h => by cases h)
  | [], _ :: _ => by
    simp only [charListLt]
    exact iff_of_true trivial List.Lex.nil
  | _ :: _, [] => by
    simp only [charListLt]
    exact iff_of_false (by simp) (fun h => by cases h)
  | c :: cs, d :: ds => by
    simp only [charListLt]
    rcases lt_trichotomy c d with hcd | hcd | hcd
    · rw [if_pos hcd]
      exact iff_of_true rfl (List.Lex.rel hcd)
    · subst hcd
      rw [if_neg (lt_irrefl c), if_neg (lt_irrefl c)]
      rw [charListLt_iff_Lex cs ds]
      constructor
      · exact fun h => List.Lex.cons h
      · intro h
        cases h with
        | rel h2 => exact absurd h2 (lt_irrefl c)
        | cons h2 => exact h2
    · rw [if_neg (lt_asymm hcd), if_pos hcd]
      refine iff_of_false (by simp) ?_
      intro h
      cases h with
      | rel h2 => exact absurd h2 (lt_asymm hcd)
      | cons h2 => exact absurd hcd (lt_irrefl c)

theorem strLt_iff (a b : String) : strLt a b = true ↔ a < b := by
  rw [String.lt_iff_toList_lt]
  exact charListLt_iff_Lex a.data b.data

theorem strLt_trans (a b c : String) (h1 : strLt a b = true)
    (h2 : strLt b c = true) : strLt a c = true :=
  (strLt_iff a c).2 (lt_trans ((strLt_iff a b).1 h1) ((strLt_iff b c).1 h2))

theorem strLt_asymm (a b : String) (h : strLt a b = true) :
    strLt b a = false := by
  cases hba : strLt b a with
  | false => rfl
  | true => exact absurd ((strLt_iff b a).1 hba) (lt_asymm ((strLt_iff a b).1 h))

theorem strLt_negtrans (a b c : String) (h1 : strLt a b = false)
    (h2 : strLt b c = false) : strLt a c = false := by
  cases hac : strLt a c with
  | false => rfl
  | true =>
    have hba : b ≤ a := not_lt.1 fun h => by simp [(strLt_iff a b).2 h] at h1
    have hcb : c ≤ b := not_lt.1 fun h => by simp [(strLt_iff b c).2 h] at h2
    exact absurd ((strLt_iff a c).1 hac) (not_lt.2 (le_trans hcb hba))

theorem strLt_false_iff (a b : String) : strLt a b = false ↔ b ≤ a := by
  rw [← not_lt, ← strLt_iff a b]
  cases strLt a b <;> simp

/-! ## The priority watchlist sort (generate_weekly_markdown lines 127-131) -/

/-- One entry of `priority_items.json`: a CVE identifier, an optional CVSS
score, the KEV flag and a short description. -/
structure PriorityItem where
  id : String
  cvss : Option ℚ
  kev : Bool
  short_desc : String
deriving Repr, DecidableEq

/-- The sort key of line 129: `(x.get("kev", False), x.get("cvss") or 0)`,
compared lexicographically with `False < True`; an absent CVSS (and a zero
score, which Python's `or` also replaces by `0`) counts as `0`. -/
def priorityKey (x : PriorityItem) : Lex (Bool × ℚ) :=
  toLex (x.kev, x.cvss.getD 0)

/-- The comparator realized by `sorted(..., key=..., reverse=True)`:
`a` strictly precedes `b` exactly when its key is strictly greater. -/
def priGT (a b : PriorityItem) : Bool :=
  decide (priorityKey b < priorityKey a)

/-- Lines 127-131: `sorted(priority, key=lambda x: (x.get("kev", False),
x.get("cvss") or 0), reverse=True)[:10]` — a stable descending sort on the
composite key followed by taking the first 10. -/
def priority_sorted (priority : List PriorityItem) : List PriorityItem :=
  (sortBy priGT priority).take 10

theorem priGT_trans (a b c : PriorityItem) (h1 : priGT a b = true)
    (h2 : priGT b c = true) : priGT a c = true := by
  simp only [priGT, decide_eq_true_eq] at *
  exact lt_trans h2 h1

theorem priGT_asymm (a b : PriorityItem) (h : priGT a b = true) :
    priGT b a = false := by
  simp only [priGT, decide_eq_true_eq, decide_eq_false_iff_not] at *
  exact lt_asymm h

theorem priGT_negtrans (a b c : PriorityItem) (h1 : priGT a b = false)
    (h2 : priGT b c = false) : priGT a c = false := by
  simp only [priGT, decide_eq_false_iff_not] at *
  exact not_lt.2 (le_trans (not_lt.1 h1) (not_lt.1 h2))

/-- C3: the priority watchlist is the first ten of a permutation of the full
input list ordered descending by the composite key `(kev, cvss-or-0)`; the
sort is stable (each key class keeps its original input order); an item with
`kev = true` always ranks above one with `kev = false`; and concretely
`kev=true, cvss=1.0` sorts above `kev=false, cvss=10.0`. -/
theorem priority_sorted_spec (l : List PriorityItem) :
    priority_sorted l = (sortBy priGT l).take 10 ∧
    (sortBy priGT l).Perm l ∧
    (sortBy priGT l).Pairwise (fun a b => priorityKey b ≤ priorityKey a) ∧
    (∀ k, (sortBy priGT l).filter (fun a => decide (priorityKey a = k)) =
      l.filter (fun a => decide (priorityKey a = k))) ∧
    (priority_sorted l).Pairwise (fun a b => b.kev = true → a.kev = true) ∧
    priority_sorted [⟨"CVE-2024-0002", some 10, false, "d2"⟩,
        ⟨"CVE-2024-0001", some 1, true, "d1"⟩] =
      [⟨"CVE-2024-0001", some 1, true, "d1"⟩,
        ⟨"CVE-2024-0002", some 10, false, "d2"⟩] := by
  have hsorted := sortBy_pairwise priGT_trans priGT_asymm l
  have hle : (sortBy priGT l).Pairwise
      (fun a b => priorityKey b ≤ priorityKey a) := by
    refine hsorted.imp ?_
    intro a b h
    have h2 : ¬ priorityKey a < priorityKey b := by
      simpa [priGT] using h
    exact not_lt.1 h2
  refine ⟨rfl, sortBy_perm priGT l, hle, ?_, ?_, by decide⟩
  · intro k
    refine sortBy_filter _ priGT_trans priGT_asymm priGT_negtrans ?_ l
    intro a b ha hb
    simp only [decide_eq_true_eq] at ha hb
    simp [priGT, ha, hb]
  · refine (List.Pairwise.sublist (List.take_sublist 10 _) hle).imp ?_
    intro a b h hb
    by_contra ha
    rw [Bool.not_eq_true] at ha
    rw [priorityKey, priorityKey, hb, ha] at h
    rcases (Prod.Lex.le_iff _ _).1 h with h2 | ⟨h2, _⟩
    · exact absurd h2 (by simp)
    · exact Bool.noConfusion h2

/-! ## Snapshot store (ti_run.py lines 210-255) -/

/-- The contents of one dated snapshot directory: file name ↦ file content
(contents modelled opaquely as strings). -/
structure SnapDir where
  files : List (String × String)
deriving Repr, DecidableEq

/-- The filesystem state the snapshot code touches: `data/derived` (file
name ↦ content) and `data/history`, which either does not exist (`none`) or
maps each date-named sub-directory to its contents. A real directory holds
at most one entry per name; theorems state that invariant explicitly. -/
structure SnapFS where
  derived : List (String × String)
  history : Option (List (String × SnapDir))
deriving Repr, DecidableEq

/-- Name lookup in a directory listing (first binding wins), the semantics
of a filesystem path or Python dictionary lookup. -/
def lookupA {β : Type} (l : List (String × β)) (k : String) : Option β :=
  match l with
  | [] => none
  | (k0, v0) :: rest => if k0 = k then some v0 else lookupA rest k

/-- Write a file (or directory entry) at a name: replace the first binding
when the name exists, append otherwise. -/
def updateAssoc {β : Type} (l : List (String × β)) (k : String) (v : β) :
    List (String × β) :=
  match l with
  | [] => [(k, v)]
  | (k0, v0) :: rest =>
    if k0 = k then (k, v) :: rest else (k0, v0) :: updateAssoc rest k v

/-- The three artifacts `snapshot_state` requires (line 233). -/
def requiredArtifacts : List String :=
  ["trends_7d.json", "trends_30d.json", "priority_items.json"]

/-- The copy loop of `snapshot_state` (lines 234-238): for each required
name in order, raise `FileNotFoundError` when it is missing from
`data/derived`, else copy it into the snapshot directory. Copies made
before a raise stay on disk. -/
def copyRequired (derived : List (String × String)) :
    List String → List (String × String) →
      List (String × String) × Except String Unit
  | [], dirFiles => (dirFiles, Except.ok ())
  | name :: rest, dirFiles =>
    match lookupA derived name with
    | none =>
      (dirFiles, Except.error ("Missing derived artifact for snapshot: " ++ name))
    | some content => copyRequired derived rest (updateAssoc dirFiles name content)

/-- The metadata record written as `meta.json` (lines 240-245), rendered
opaquely from the snapshot date and the generation timestamp. -/
def metaContent (today generated_at : String) : String :=
  "snapshot_date=" ++ today ++ ";generated_at=" ++ generated_at

/-- `snapshot_state(root)` (lines 215-246); `today` is `utc_date_str()` and
`now` the generation timestamp. The dated directory is created first
(`mkdir` with `parents=True, exist_ok=True`, line 230) — before any
artifact is checked — then the artifacts are copied one by one and
`meta.json` is written. The returned state reflects every step performed
before a raise. -/
def snapshot_state (today now : String) (fs : SnapFS) :
    SnapFS × Except String String :=
  let hist0 := fs.history.getD []
  let dir0 : SnapDir := (lookupA hist0 today).getD ⟨[]⟩
  match copyRequired fs.derived requiredArtifacts dir0.files with
  | (files1, Except.error e) =>
    ({ fs with history := some (updateAssoc hist0 today ⟨files1⟩) },
      Except.error e)
  | (files1, Except.ok _) =>
    ({ fs with history := some (updateAssoc hist0 today
        ⟨updateAssoc files1 "meta.json" (metaContent today now)⟩) },
      Except.ok today)

/-- `list_snapshots(root)` (lines 249-255): `[]` when the history directory
does not exist; otherwise the sub-directory names sorted ascending
(`snaps.sort(key=lambda p: p.name)`, a stable ascending string sort). -/
def list_snapshots (fs : SnapFS) : List String :=
  match fs.history with
  | none => []
  | some h => sortBy strLt (h.map Prod.fst)

/-- The dates holding a snapshot in the history area. -/
def histDates (fs : SnapFS) : List String :=
  (fs.history.getD []).map Prod.fst

theorem lookupA_updateAssoc {β : Type} (l : List (String × β)) (k k2 : String)
    (v : β) :
    lookupA (updateAssoc l k v) k2 = if k2 = k then some v else lookupA l k2 := by
  induction l with
  | nil =>
    simp only [updateAssoc, lookupA]
    by_cases h : k2 = k
    · rw [if_pos h.symm, if_pos h]
    · rw [if_neg (fun hh => h hh.symm), if_neg h]
  | cons p rest ih =>
    obtain ⟨k0, v0⟩ := p
    simp only [updateAssoc]
    by_cases h0 : k0 = k
    · rw [if_pos h0]
      simp only [lookupA]
      by_cases h2 : k2 = k
      · rw [if_pos h2.symm, if_pos h2]
      · rw [if_neg (fun hh => h2 hh.symm), if_neg h2,
          if_neg (fun hh => h2 (hh.symm.trans h0))]
    · rw [if_neg h0]
      simp only [lookupA]
      by_cases h2 : k0 = k2
      · rw [if_pos h2, if_neg (fun hh => h0 (h2.trans hh)), if_pos h2]
      · rw [if_neg h2, ih]
        by_cases h3 : k2 = k
        · rw [if_pos h3, if_pos h3]
        · rw [if_neg h3, if_neg h3, if_neg h2]

theorem mem_keys_updateAssoc {β : Type} (l : List (String × β)) (k : String)
    (v : β) (k2 : String) :
    k2 ∈ (updateAssoc l k v).map Prod.fst ↔
      k2 ∈ l.map Prod.fst ∨ k2 = k := by
  induction l with
  | nil => simp [updateAssoc]
  | cons p rest ih =>
    obtain ⟨k0, v0⟩ := p
    simp only [updateAssoc]
    by_cases h0 : k0 = k
    · rw [if_pos h0]
      subst h0
      simp only [List.map_cons, List.mem_cons]
      tauto
    · rw [if_neg h0]
      simp only [List.map_cons, List.mem_cons, ih]
      tauto

theorem nodup_keys_updateAssoc {β : Type} (l : List (String × β)) (k : String)
    (v : β) (h : (l.map Prod.fst).Nodup) :
    ((updateAssoc l k v).map Prod.fst).Nodup := by
  induction l with
  | nil => simp [updateAssoc]
  | cons p rest ih =>
    obtain ⟨k0, v0⟩ := p
    simp only [List.map_cons, List.nodup_cons] at h
    obtain ⟨hk0, hrest⟩ := h
    simp only [updateAssoc]
    by_cases h0 : k0 = k
    · rw [if_pos h0]
      subst h0
      simp only [List.map_cons, List.nodup_cons]
      exact ⟨hk0, hrest⟩
    · rw [if_neg h0]
      simp only [List.map_cons, List.nodup_cons]
      refine ⟨?_, ih hrest⟩
      rw [mem_keys_updateAssoc]
      rintro (hmem | rfl)
      · exact hk0 hmem
      · exact h0 rfl

theorem copyRequired_lookupA_notmem (derived : List (String × String)) :
    ∀ (names : List String) (acc : List (String × String)) (k : String),
      k ∉ names →
      lookupA (copyRequired derived names acc).1 k = lookupA acc k := by
  intro names
  induction names with
  | nil => intro acc k _; rfl
  | cons n rest ih =>
    intro acc k hk
    simp only [List.mem_cons, not_or] at hk
    obtain ⟨hkn, hkrest⟩ := hk
    cases hln : lookupA derived n with
    | none => simp only [copyRequired, hln]
    | some c =>
      simp only [copyRequired, hln]
      rw [ih _ k hkrest, lookupA_updateAssoc, if_neg hkn]

theorem copyRequired_ok_lookupA (derived : List (String × String)) :
    ∀ (names : List String) (acc files1 : List (String × String)),
      names.Nodup →
      copyRequired derived names acc = (files1, Except.ok ()) →
      ∀ name ∈ names, lookupA files1 name = lookupA derived name := by
  intro names
  induction names with
  | nil => intro acc files1 _ _ name hname; simp at hname
  | cons n rest ih =>
    intro acc files1 hnd hok name hname
    simp only [List.nodup_cons] at hnd
    obtain ⟨hn, hndrest⟩ := hnd
    cases hln : lookupA derived n with
    | none =>
      simp only [copyRequired, hln, Prod.mk.injEq] at hok
      exact Except.noConfusion hok.2
    | some c =>
      simp only [copyRequired, hln] at hok
      rcases List.mem_cons.1 hname with rfl | hname
      · have h1 := copyRequired_lookupA_notmem derived rest
          (updateAssoc acc name c) name hn
        rw [hok] at h1
        simp only at h1
        rw [h1, lookupA_updateAssoc, if_pos rfl, hln]
      · exact ih _ _ hndrest hok name hname

/-- C6: `list_snapshots` returns the empty sequence when no history
directory exists and otherwise all captured snapshots in non-decreasing
date order — dates being the ISO directory names, whose lexicographic
string order is chronological — for any insertion order of the underlying
captures. -/
theorem list_snapshots_sorted (fs : SnapFS) :
    (fs.history = none → list_snapshots fs = []) ∧
    (∀ h, fs.history = some h → (list_snapshots fs).Perm (h.map Prod.fst)) ∧
    (list_snapshots fs).Pairwise (fun a b => a ≤ b) := by
  refine ⟨fun h => by simp [list_snapshots, h], fun h hh => ?_, ?_⟩
  · simp only [list_snapshots, hh]
    exact sortBy_perm strLt _
  · cases hh : fs.history with
    | none => simp [list_snapshots, hh]
    | some h =>
      simp only [list_snapshots, hh]
      exact (sortBy_pairwise strLt_trans strLt_asymm (h.map Prod.fst)).imp
        (fun h2 => (strLt_false_iff _ _).1 h2)

/-- Witness for C6 at a concrete input: three dates captured out of order
come back in ascending order, and a missing history directory yields `[]`. -/
theorem list_snapshots_sorted_witness :
    list_snapshots ⟨[], some [("2025-03-09", ⟨[]⟩), ("2025-03-07", ⟨[]⟩),
        ("2025-03-08", ⟨[]⟩)]⟩ = ["2025-03-07", "2025-03-08", "2025-03-09"] ∧
    list_snapshots ⟨[], none⟩ = [] ∧
    (list_snapshots ⟨[], some [("2025-03-09", ⟨[]⟩), ("2025-03-07", ⟨[]⟩),
        ("2025-03-08", ⟨[]⟩)]⟩).Pairwise (fun a b => a ≤ b) :=
  ⟨by decide, (list_snapshots_sorted ⟨[], none⟩).1 rfl,
    (list_snapshots_sorted _).2.2⟩

/-- C2 (refuting evaluation): with `trends_7d.json` present but
`trends_30d.json` and `priority_items.json` missing, `snapshot_state`
raises the missing-artifact error, yet the dated directory it already
created (holding the one copied artifact) remains discoverable by
`list_snapshots`: the operation is not all-or-nothing. -/
theorem snapshot_state_not_atomic :
    (snapshot_state "2026-10-12" "T0"
        ⟨[("trends_7d.json", "A")], none⟩).2 =
      Except.error "Missing derived artifact for snapshot: trends_30d.json" ∧
    list_snapshots (snapshot_state "2026-10-12" "T0"
        ⟨[("trends_7d.json", "A")], none⟩).1 = ["2026-10-12"] ∧
    lookupA ((snapshot_state "2026-10-12" "T0"
        ⟨[("trends_7d.json", "A")], none⟩).1.history.getD [])
        "2026-10-12" = some ⟨[("trends_7d.json", "A")]⟩ :=
  ⟨rfl, rfl, rfl⟩

/-- C9: at most one snapshot per calendar date. Both outcomes of
`snapshot_state` keep the dated directory names distinct (so each date has
at most one snapshot) and add at most the new date; on success the dated
directory holds the current derived artifacts and fresh metadata — a second
capture on the same date overwrites the prior one in place
(last-write-wins). -/
theorem snapshot_state_one_per_date (today now : String) (fs : SnapFS)
    (hnd : (histDates fs).Nodup) :
    (histDates (snapshot_state today now fs).1).Nodup ∧
    (∀ d, (histDates (snapshot_state today now fs).1).count d ≤ 1) ∧
    (∀ d, d ∈ histDates (snapshot_state today now fs).1 ↔
      d ∈ histDates fs ∨ d = today) ∧
    (∀ r, (snapshot_state today now fs).2 = Except.ok r → r = today) ∧
    ((snapshot_state today now fs).2 = Except.ok today →
      ∃ dir, lookupA ((snapshot_state today now fs).1.history.getD []) today =
          some dir ∧
        (∀ name ∈ requiredArtifacts,
          lookupA dir.files name = lookupA fs.derived name) ∧
        lookupA dir.files "meta.json" = some (metaContent today now)) := by
  have hnd0 : (((fs.history.getD []) : List (String × SnapDir)).map
      Prod.fst).Nodup := hnd
  cases hcr : copyRequired fs.derived requiredArtifacts
      ((lookupA (fs.history.getD []) today).getD ⟨[]⟩).files with
  | mk files1 res =>
    cases res with
    | error e =>
      have hfs1 : (snapshot_state today now fs).1 =
          { fs with history := some (updateAssoc (fs.history.getD []) today
              ⟨files1⟩) } := by
        simp only [snapshot_state, hcr]
      have hres : (snapshot_state today now fs).2 = Except.error e := by
        simp only [snapshot_state, hcr]
      refine ⟨?_, ?_, ?_, ?_, ?_⟩
      · rw [hfs1]
        exact nodup_keys_updateAssoc _ _ _ hnd0
      · intro d
        exact List.nodup_iff_count_le_one.1
          (by rw [hfs1]; exact nodup_keys_updateAssoc _ _ _ hnd0) d
      · intro d
        rw [hfs1]
        exact mem_keys_updateAssoc _ _ _ d
      · intro r hr
        rw [hres] at hr
        cases hr
      · intro hr
        rw [hres] at hr
        cases hr
    | ok u =>
      obtain ⟨⟩ := u
      have hfs1 : (snapshot_state today now fs).1 =
          { fs with history := some (updateAssoc (fs.history.getD []) today
              ⟨updateAssoc files1 "meta.json" (metaContent today now)⟩) } := by
        simp only [snapshot_state, hcr]
      have hres : (snapshot_state today now fs).2 = Except.ok today := by
        simp only [snapshot_state, hcr]
      refine ⟨?_, ?_, ?_, ?_, ?_⟩
      · rw [hfs1]
        exact nodup_keys_updateAssoc _ _ _ hnd0
      · intro d
        exact List.nodup_iff_count_le_one.1
          (by rw [hfs1]; exact nodup_keys_updateAssoc _ _ _ hnd0) d
      · intro d
        rw [hfs1]
        exact mem_keys_updateAssoc _ _ _ d
      · intro r hr
        rw [hres] at hr
        injection hr with hr
        exact hr.symm
      · intro _
        refine ⟨⟨updateAssoc files1 "meta.json" (metaContent today now)⟩,
          ?_, ?_, ?_⟩
        · rw [hfs1]
          simp only [Option.getD_some]
          rw [lookupA_updateAssoc, if_pos rfl]
        · intro name hname
          have hname2 := hname
          simp only [requiredArtifacts, List.mem_cons, List.not_mem_nil,
            or_false] at hname2
          have hne : ¬ name = "meta.json" := by
            rcases hname2 with rfl | rfl | rfl <;> decide
          simp only
          rw [lookupA_updateAssoc, if_neg hne]
          exact copyRequired_ok_lookupA fs.derived requiredArtifacts _ files1
            (by decide) hcr name hname
        · simp only
          rw [lookupA_updateAssoc, if_pos rfl]

/-- The state seen by a second run on 2026-10-12, after a first run that
day already captured version-1 artifacts and the derivation stage has since
rewritten `data/derived` with version-2 contents. -/
def secondRunFS : SnapFS :=
  { derived := [("trends_7d.json", "v2"), ("trends_30d.json", "v2"),
      ("priority_items.json", "v2")],
    history := some [("2026-10-12",
      ⟨[("trends_7d.json", "v1"), ("trends_30d.json", "v1"),
        ("priority_items.json", "v1"),
        ("meta.json", metaContent "2026-10-12" "t1")]⟩)] }

/-- Witness for C9 at a concrete input: a second capture on 2026-10-12
leaves exactly one dated directory, whose artifacts now hold the second
run's contents. -/
theorem snapshot_state_one_per_date_witness :
    (histDates (snapshot_state "2026-10-12" "t2" secondRunFS).1).Nodup ∧
    ("2026-10-12" ∈ histDates (snapshot_state "2026-10-12" "t2" secondRunFS).1 ↔
      "2026-10-12" ∈ histDates secondRunFS ∨
        ("2026-10-12" : String) = "2026-10-12") ∧
    (∃ dir, lookupA ((snapshot_state "2026-10-12" "t2"
          secondRunFS).1.history.getD []) "2026-10-12" = some dir ∧
      (∀ name ∈ requiredArtifacts,
        lookupA dir.files name = lookupA secondRunFS.derived name) ∧
      lookupA dir.files "meta.json" = some (metaContent "2026-10-12" "t2")) :=
  ⟨(snapshot_state_one_per_date "2026-10-12" "t2" secondRunFS (by decide)).1,
    (snapshot_state_one_per_date "2026-10-12" "t2" secondRunFS
      (by decide)).2.2.1 "2026-10-12",
    (snapshot_state_one_per_date "2026-10-12" "t2" secondRunFS
      (by decide)).2.2.2.2 rfl⟩

/-! ## The weekly brief (generate_weekly_markdown, ti_run.py lines 113-208)

The function is modelled as a pure producer of the list of output lines
(the file is written as their `"\n"`-join, line 206). The current UTC date
and timestamp (`now`, line 122) are explicit arguments, as are the three
parsed artifacts the function reads from `data/derived` (lines 118-120). -/

/-- The 7-day trend summary as read by `generate_weekly_markdown`:
`trends_7["total_items"]` and `trends_7["by_severity"]` are accessed with
brackets (the artifact schema guarantees them present); the severity counts
inside use `.get(sev, 0)`. -/
structure Trends7 where
  total_items : Int
  by_severity : List (String × Int)
deriving Repr, DecidableEq

/-- The 30-day trend summary as read by `generate_weekly_markdown`:
`kev_items` with brackets, `top_vendors` / `top_products` with
`.get(.., [])`. -/
structure Trends30 where
  kev_items : Int
  top_vendors : Option (List (String × Int))
  top_products : Option (List (String × Int))
deriving Repr, DecidableEq

/-- `sev_count(sev)` (lines 134-135): `trends_7["by_severity"].get(sev, 0)`. -/
def sev_count (trends_7 : Trends7) (sev : String) : Int :=
  (lookupA trends_7.by_severity sev).getD 0

/-- `f"{x:.1f}"`: a percentage rendered to one decimal place (rounded to
the nearest tenth, as float formatting does). -/
def fmt1 (q : ℚ) : String :=
  let n : Int := round (q * 10)
  (if n < 0 then "-" else "") ++ toString (n.natAbs / 10) ++ "." ++
    toString (n.natAbs % 10)

/-- The `pct` field of a movement line (lines 152 and 156): one decimal
place and a percent sign, or the literal text `n/a` when `pct` is null. -/
def fmtPct : Option ℚ → String
  | none => "n/a"
  | some q => fmt1 q ++ "%"

/-- Line 153: `f"- Total CVEs: {t['delta']} (from {t['old']} to {t['new']},
{pct})"`. -/
def movementTotalLine (t : DeltaEntry) : String :=
  "- " ++ ("Total CVEs: " ++ toString t.delta ++ " (from " ++ toString t.old
    ++ " to " ++ toString t.new ++ ", " ++ fmtPct t.pct ++ ")")

/-- Line 158: `f"- {sev.title()}: {d['delta']} (from {d['old']} to
{d['new']}, {pct2})"`. -/
def movementSevLine (sev : String) (d : DeltaEntry) : String :=
  "- " ++ (sev.capitalize ++ ": " ++ toString d.delta ++ " (from "
    ++ toString d.old ++ " to " ++ toString d.new ++ ", " ++ fmtPct d.pct
    ++ ")")

/-- The movement section (lines 149-159), emitted only under `if delta:`
(`delta` is either `None` or the never-empty dictionary built by
`compute_deltas`, so Python truthiness coincides with presence). The loop
over the five severity buckets is unrolled in their fixed order. -/
def movementBlock : Option Delta → List String
  | none => []
  | some delta =>
    ["## Week-over-Week Movement",
      movementTotalLine delta.total,
      movementSevLine "critical" delta.critical,
      movementSevLine "high" delta.high,
      movementSevLine "medium" delta.medium,
      movementSevLine "low" delta.low,
      movementSevLine "unknown" delta.unknown,
      ""]

/-- The three takeaway checks (lines 163-177): the tiered critical check,
the independent KEV check, and the independent high-volume check. -/
def takeawayLines (trends_7 : Trends7) (trends_30 : Trends30) : List String :=
  (if sev_count trends_7 "critical" > 50 then
    ["- Elevated volume of Critical vulnerabilities this week. Prioritize external-facing asset review."]
  else if sev_count trends_7 "critical" > 10 then
    ["- Moderate Critical vulnerability volume. Validate patch cadence and exposure management."]
  else
    ["- Critical vulnerability volume is lower than typical baseline."])
  ++ (if trends_30.kev_items > 0 then
    ["- Recently added KEV vulnerabilities detected. Review CISA remediation timelines."]
  else
    ["- No new KEV movement in the last 30 days."])
  ++ (if sev_count trends_7 "high" > 300 then
    ["- High severity volume suggests increased patch workload. Focus on internet-exposed services first."]
  else [])

/-- Python's `str(x)` for the optional CVSS score in a watchlist line
(`item.get("cvss")`, line 198): `None` when absent. -/
def showCvss : Option ℚ → String
  | none => "None"
  | some q => toString q

/-- Python string slicing `s[:140]` (line 198): the first `n` code points,
a hard character cut. -/
def strTake (s : String) (n : Nat) : String := ⟨s.data.take n⟩

/-- Lines 197-199: `f"- {item['id']} | CVSS: {item.get('cvss')} | KEV:
{item['kev']} | {item['short_desc'][:140]}"`. -/
def watchlistLine (item : PriorityItem) : String :=
  "- " ++ (item.id ++ " | CVSS: " ++ showCvss item.cvss ++ " | KEV: "
    ++ (if item.kev then "True" else "False") ++ " | "
    ++ strTake item.short_desc 140)

/-- Lines 139-147: title, week-of line and executive snapshot. -/
def execBlock (today : String) (trends_7 : Trends7) (trends_30 : Trends30) :
    List String :=
  ["# Bastion Codex – Weekly Defender Brief",
    "Week of " ++ today,
    "",
    "## Executive Snapshot",
    "- " ++ (toString trends_7.total_items ++ " CVEs observed in the last 7 days"),
    "- " ++ (toString (sev_count trends_7 "critical") ++ " Critical"),
    "- " ++ (toString (sev_count trends_7 "high") ++ " High"),
    "- " ++ (toString trends_30.kev_items ++ " KEV-listed vulnerabilities in last 30 days"),
    ""]

/-- Lines 161-178: takeaways header, the three checks, blank line. -/
def takeawaysBlock (trends_7 : Trends7) (trends_30 : Trends30) : List String :=
  "## Defender Takeaways" :: takeawayLines trends_7 trends_30 ++ [""]

/-- Lines 180-183: severity breakdown in the fixed bucket order (the loop
over the five severities unrolled; `sev.title()` capitalizes each name). -/
def severityBlock (trends_7 : Trends7) : List String :=
  ["## Severity Breakdown (7 Days)",
    "- " ++ ("critical".capitalize ++ ": " ++ toString (sev_count trends_7 "critical")),
    "- " ++ ("high".capitalize ++ ": " ++ toString (sev_count trends_7 "high")),
    "- " ++ ("medium".capitalize ++ ": " ++ toString (sev_count trends_7 "medium")),
    "- " ++ ("low".capitalize ++ ": " ++ toString (sev_count trends_7 "low")),
    "- " ++ ("unknown".capitalize ++ ": " ++ toString (sev_count trends_7 "unknown")),
    ""]

/-- Lines 185-188: top vendors, first 10, in the order provided. -/
def vendorsBlock (trends_30 : Trends30) : List String :=
  "## Top Vendors (30 Days)" ::
    ((trends_30.top_vendors.getD []).take 10).map
      (fun vc => "- " ++ (vc.1 ++ ": " ++ toString vc.2)) ++ [""]

/-- Lines 190-193: top products, first 10, in the order provided. -/
def productsBlock (trends_30 : Trends30) : List String :=
  "## Top Products (30 Days)" ::
    ((trends_30.top_products.getD []).take 10).map
      (fun pc => "- " ++ (pc.1 ++ ": " ++ toString pc.2)) ++ [""]

/-- Lines 195-199: the priority watchlist. -/
def watchlistBlock (priority : List PriorityItem) : List String :=
  "## Priority Watchlist (Top 10)" ::
    (priority_sorted priority).map watchlistLine

/-- Lines 201-203: footer. -/
def footerBlock (now_iso : String) : List String :=
  ["", "---", "Generated by Bastion Codex at " ++ now_iso]

/-- `generate_weekly_markdown(root, delta)` (lines 113-208) as the list of
lines of the produced brief. -/
def generate_weekly_markdown (today now_iso : String) (trends_7 : Trends7)
    (trends_30 : Trends30) (priority : List PriorityItem)
    (delta : Option Delta) : List String :=
  execBlock today trends_7 trends_30
    ++ movementBlock delta
    ++ takeawaysBlock trends_7 trends_30
    ++ severityBlock trends_7
    ++ vendorsBlock trends_30
    ++ productsBlock trends_30
    ++ watchlistBlock priority
    ++ footerBlock now_iso

/-- The delta decision of `run_weekly` (lines 93-104): when the
post-snapshot history has at least two snapshots, `prev = snaps[-2]` and
`cur = snaps[-1]` feed `compute_deltas` on their parsed `trends_7d.json`
contents (given here as `snaps7`, in `list_snapshots` order); otherwise no
delta is computed. -/
def weeklyDelta (snaps7 : List TrendSummaryDict) : Option Delta :=
  if h : 2 ≤ snaps7.length then
    some (compute_deltas (snaps7.get ⟨snaps7.length - 2, by omega⟩)
      (snaps7.get ⟨snaps7.length - 1, by omega⟩))
  else none

theorem str_ne_of_head {a b : String} (h : a.data.head? ≠ b.data.head?) :
    a ≠ b :=
  fun hh => h (by rw [hh])

theorem append_ne_movement (p s : String) (c : Char)
    (hc : p.data.head? = some c) (hne : c ≠ '#') :
    p ++ s ≠ "## Week-over-Week Movement" := by
  apply str_ne_of_head
  rw [String.data_append, List.head?_append, hc]
  intro hh
  rw [show ("## Week-over-Week Movement" : String).data.head? = some '#'
    from rfl] at hh
  simp only [Option.or_some] at hh
  exact hne (Option.some.inj hh)

theorem movement_notin_execBlock (today : String) (t7 : Trends7)
    (t30 : Trends30) :
    "## Week-over-Week Movement" ∉ execBlock today t7 t30 := by
  intro h
  simp only [execBlock, List.mem_cons, List.not_mem_nil, or_false] at h
  rcases h with h | h | h | h | h | h | h | h | h
  · exact absurd h (by decide)
  · exact append_ne_movement "Week of " today 'W' rfl (by decide) h.symm
  · exact absurd h (by decide)
  · exact absurd h (by decide)
  · exact append_ne_movement "- " _ '-' rfl (by decide) h.symm
  · exact append_ne_movement "- " _ '-' rfl (by decide) h.symm
  · exact append_ne_movement "- " _ '-' rfl (by decide) h.symm
  · exact append_ne_movement "- " _ '-' rfl (by decide) h.symm
  · exact absurd h (by decide)

theorem movement_notin_takeaways (t7 : Trends7) (t30 : Trends30) :
    "## Week-over-Week Movement" ∉ takeawayLines t7 t30 := by
  unfold takeawayLines
  split_ifs <;> decide

theorem movement_notin_takeawaysBlock (t7 : Trends7) (t30 : Trends30) :
    "## Week-over-Week Movement" ∉ takeawaysBlock t7 t30 := by
  intro h
  rcases List.mem_cons.1 h with h | h
  · exact absurd h (by decide)
  rcases List.mem_append.1 h with h | h
  · exact movement_notin_takeaways t7 t30 h
  · exact absurd (List.mem_singleton.1 h) (by decide)

theorem movement_notin_severityBlock (t7 : Trends7) :
    "## Week-over-Week Movement" ∉ severityBlock t7 := by
  intro h
  simp only [severityBlock, List.mem_cons, List.not_mem_nil, or_false] at h
  rcases h with h | h | h | h | h | h | h
  · exact absurd h (by decide)
  · exact append_ne_movement "- " _ '-' rfl (by decide) h.symm
  · exact append_ne_movement "- " _ '-' rfl (by decide) h.symm
  · exact append_ne_movement "- " _ '-' rfl (by decide) h.symm
  · exact append_ne_movement "- " _ '-' rfl (by decide) h.symm
  · exact append_ne_movement "- " _ '-' rfl (by decide) h.symm
  · exact absurd h (by decide)

theorem movement_notin_dashmap {α : Type} (f : α → String) (l : List α)
    (hf : ∀ a, ∃ s, f a = "- " ++ s) :
    "## Week-over-Week Movement" ∉ l.map f := by
  intro h
  rcases List.mem_map.1 h with ⟨a, _, ha⟩
  rcases hf a with ⟨s, hs⟩
  rw [hs] at ha
  exact append_ne_movement "- " s '-' rfl (by decide) ha

theorem movement_notin_vendorsBlock (t30 : Trends30) :
    "## Week-over-Week Movement" ∉ vendorsBlock t30 := by
  intro h
  rcases List.mem_cons.1 h with h | h
  · exact absurd h (by decide)
  rcases List.mem_append.1 h with h | h
  · exact movement_notin_dashmap _ _ (fun a => ⟨_, rfl⟩) h
  · exact absurd (List.mem_singleton.1 h) (by decide)

theorem movement_notin_productsBlock (t30 : Trends30) :
    "## Week-over-Week Movement" ∉ productsBlock t30 := by
  intro h
  rcases List.mem_cons.1 h with h | h
  · exact absurd h (by decide)
  rcases List.mem_append.1 h with h | h
  · exact movement_notin_dashmap _ _ (fun a => ⟨_, rfl⟩) h
  · exact absurd (List.mem_singleton.1 h) (by decide)

theorem movement_notin_watchlistBlock (pr : List PriorityItem) :
    "## Week-over-Week Movement" ∉ watchlistBlock pr := by
  intro h
  simp only [watchlistBlock, List.mem_cons] at h
  rcases h with h | h
  · exact absurd h (by decide)
  · exact movement_notin_dashmap watchlistLine _ (fun a => ⟨_, rfl⟩) h

theorem movement_notin_footerBlock (now_iso : String) :
    "## Week-over-Week Movement" ∉ footerBlock now_iso := by
  intro h
  simp only [footerBlock, List.mem_cons, List.not_mem_nil, or_false] at h
  rcases h with h | h | h
  · exact absurd h (by decide)
  · exact absurd h (by decide)
  · exact append_ne_movement "Generated by Bastion Codex at " _ 'G' rfl
      (by decide) h.symm

theorem movement_notin_none (today now_iso : String) (t7 : Trends7)
    (t30 : Trends30) (pr : List PriorityItem) :
    "## Week-over-Week Movement" ∉
      generate_weekly_markdown today now_iso t7 t30 pr none := by
  intro h
  simp only [generate_weekly_markdown, movementBlock, List.append_nil,
    List.mem_append] at h
  rcases h with ((((((h | h) | h) | h) | h) | h) | h)
  · exact movement_notin_execBlock today t7 t30 h
  · exact movement_notin_takeawaysBlock t7 t30 h
  · exact movement_notin_severityBlock t7 h
  · exact movement_notin_vendorsBlock t30 h
  · exact movement_notin_productsBlock t30 h
  · exact movement_notin_watchlistBlock pr h
  · exact movement_notin_footerBlock now_iso h

/-- C4: the movement section is present in the brief iff a delta is
supplied; `run_weekly` supplies one iff the post-snapshot history has at
least two snapshots, and then it compares the second-most-recent snapshot
(old) against the most recent one (new); when present, the section lists
for the total and each severity bucket a line showing `delta`, `old`,
`new`, and `pct` to one decimal place or the literal text `n/a` when `pct`
is null. -/
theorem movement_section_spec :
    (∀ snaps7 : List TrendSummaryDict,
      (weeklyDelta snaps7).isSome ↔ 2 ≤ snaps7.length) ∧
    (∀ snaps7 : List TrendSummaryDict, ∀ h : 2 ≤ snaps7.length,
      weeklyDelta snaps7 = some (compute_deltas
        (snaps7.get ⟨snaps7.length - 2, by omega⟩)
        (snaps7.get ⟨snaps7.length - 1, by omega⟩))) ∧
    (∀ today now_iso t7 t30 pr delta,
      "## Week-over-Week Movement" ∈
          generate_weekly_markdown today now_iso t7 t30 pr delta ↔
        delta.isSome) ∧
    (∀ today now_iso t7 t30 pr d, List.IsInfix (movementBlock (some d))
      (generate_weekly_markdown today now_iso t7 t30 pr (some d))) ∧
    (∀ sev d, movementSevLine sev d = "- " ++ (sev.capitalize ++ ": "
      ++ toString d.delta ++ " (from " ++ toString d.old ++ " to "
      ++ toString d.new ++ ", " ++ fmtPct d.pct ++ ")")) ∧
    (∀ t, movementTotalLine t = "- " ++ ("Total CVEs: " ++ toString t.delta
      ++ " (from " ++ toString t.old ++ " to " ++ toString t.new ++ ", "
      ++ fmtPct t.pct ++ ")")) ∧
    fmtPct none = "n/a" ∧
    (∀ q, fmtPct (some q) = fmt1 q ++ "%") := by
  refine ⟨?_, ?_, ?_, ?_, fun sev d => rfl, fun t => rfl, rfl, fun q => rfl⟩
  · intro snaps7
    by_cases h : 2 ≤ snaps7.length <;> simp [weeklyDelta, h]
  · intro snaps7 h
    simp [weeklyDelta, h]
  · intro today now_iso t7 t30 pr delta
    cases delta with
    | none =>
      simp only [Option.isSome_none]
      exact iff_of_false (movement_notin_none today now_iso t7 t30 pr)
        (by simp)
    | some d =>
      refine iff_of_true ?_ rfl
      have hmv : "## Week-over-Week Movement" ∈ movementBlock (some d) := by
        simp [movementBlock]
      unfold generate_weekly_markdown
      exact List.mem_append_left _ (List.mem_append_left _
        (List.mem_append_left _ (List.mem_append_left _
          (List.mem_append_left _ (List.mem_append_left _
            (List.mem_append_right _ hmv))))))
  · intro today now_iso t7 t30 pr d
    refine ⟨execBlock today t7 t30,
      takeawaysBlock t7 t30 ++ severityBlock t7 ++ vendorsBlock t30
        ++ productsBlock t30 ++ watchlistBlock pr ++ footerBlock now_iso, ?_⟩
    unfold generate_weekly_markdown
    simp only [List.append_assoc]

/-- Witness for C4 at concrete inputs: with two snapshots a delta is
computed from them and the movement header appears; with one snapshot no
delta is computed. -/
theorem movement_section_spec_witness :
    (weeklyDelta [⟨some 100, none⟩, ⟨some 150, none⟩]).isSome ∧
    weeklyDelta [⟨some 100, none⟩] = none ∧
    "## Week-over-Week Movement" ∈ generate_weekly_markdown "2026-10-12"
      "T" ⟨150, []⟩ ⟨0, none, none⟩ []
      (weeklyDelta [⟨some 100, none⟩, ⟨some 150, none⟩]) := by
  have h1 := movement_section_spec.1 [⟨some 100, none⟩, ⟨some 150, none⟩]
  have h2 : (weeklyDelta [(⟨some 100, none⟩ : TrendSummaryDict)]).isSome ↔
      2 ≤ [(⟨some 100, none⟩ : TrendSummaryDict)].length :=
    movement_section_spec.1 [⟨some 100, none⟩]
  refine ⟨h1.2 (by decide), ?_, ?_⟩
  · have h3 : ¬ (weeklyDelta [(⟨some 100, none⟩ : TrendSummaryDict)]).isSome := by
      rw [h2]; decide
    cases h4 : weeklyDelta [(⟨some 100, none⟩ : TrendSummaryDict)] with
    | none => rfl
    | some d => rw [h4] at h3; exact absurd rfl h3
  · exact (movement_section_spec.2.2.1 "2026-10-12" "T" ⟨150, []⟩
      ⟨0, none, none⟩ [] (weeklyDelta [⟨some 100, none⟩, ⟨some 150, none⟩])).2
      (h1.2 (by decide))

/-- C5: the takeaways are three independent checks: exactly one of the
elevated / moderate / below-baseline wordings according to the 7-day
critical count (`> 50`, `> 10` and `≤ 50`, otherwise); a KEV-review note
iff the 30-day KEV count is positive, else the no-movement note; and the
high-volume note appended iff the 7-day high count exceeds 300 (so the
section has 2 or 3 lines, not one branch of a single decision). -/
theorem takeaways_spec (t7 : Trends7) (t30 : Trends30) :
    ("- Elevated volume of Critical vulnerabilities this week. Prioritize external-facing asset review."
        ∈ takeawayLines t7 t30 ↔ 50 < sev_count t7 "critical") ∧
    ("- Moderate Critical vulnerability volume. Validate patch cadence and exposure management."
        ∈ takeawayLines t7 t30 ↔
      10 < sev_count t7 "critical" ∧ sev_count t7 "critical" ≤ 50) ∧
    ("- Critical vulnerability volume is lower than typical baseline."
        ∈ takeawayLines t7 t30 ↔ sev_count t7 "critical" ≤ 10) ∧
    ("- Recently added KEV vulnerabilities detected. Review CISA remediation timelines."
        ∈ takeawayLines t7 t30 ↔ 0 < t30.kev_items) ∧
    ("- No new KEV movement in the last 30 days."
        ∈ takeawayLines t7 t30 ↔ t30.kev_items ≤ 0) ∧
    ("- High severity volume suggests increased patch workload. Focus on internet-exposed services first."
        ∈ takeawayLines t7 t30 ↔ 300 < sev_count t7 "high") ∧
    (takeawayLines t7 t30).length =
      2 + (if 300 < sev_count t7 "high" then 1 else 0) := by
  unfold takeawayLines
  refine ⟨?_, ?_, ?_, ?_, ?_, ?_, ?_⟩ <;>
    · split_ifs <;> simp_all <;> omega

/-- Witness for C5 at a concrete input (the spec's scenario): a 7-day
critical count of 60 yields the elevated wording, and a 30-day KEV count of
0 the no-movement note. -/
theorem takeaways_spec_witness :
    "- Elevated volume of Critical vulnerabilities this week. Prioritize external-facing asset review."
        ∈ takeawayLines ⟨120, [("critical", 60), ("high", 10)]⟩ ⟨0, none, none⟩ ∧
    "- No new KEV movement in the last 30 days."
        ∈ takeawayLines ⟨120, [("critical", 60), ("high", 10)]⟩ ⟨0, none, none⟩ ∧
    (takeawayLines ⟨120, [("critical", 60), ("high", 10)]⟩ ⟨0, none, none⟩).length = 2 :=
  ⟨(takeaways_spec ⟨120, [("critical", 60), ("high", 10)]⟩ ⟨0, none, none⟩).1.2
      (by decide),
    (takeaways_spec ⟨120, [("critical", 60), ("high", 10)]⟩
        ⟨0, none, none⟩).2.2.2.2.1.2 (by decide),
    by decide⟩

/-- C7: every watchlist line renders the short description as the hard
character cut `short_desc[:140]` (no word-boundary logic): the rendered
description has length `min 140 (length short_desc)`, hence exactly 140
characters whenever the description has at least 140. -/
theorem watchlist_truncation (item : PriorityItem) :
    watchlistLine item = "- " ++ (item.id ++ " | CVSS: " ++ showCvss item.cvss
      ++ " | KEV: " ++ (if item.kev then "True" else "False") ++ " | "
      ++ strTake item.short_desc 140) ∧
    (strTake item.short_desc 140).data = item.short_desc.data.take 140 ∧
    (strTake item.short_desc 140).length = min 140 item.short_desc.length ∧
    (140 ≤ item.short_desc.length →
      (strTake item.short_desc 140).length = 140) := by
  refine ⟨rfl, rfl, ?_, ?_⟩
  · show (item.short_desc.data.take 140).length = min 140 item.short_desc.data.length
    exact List.length_take 140 item.short_desc.data
  · intro h
    show (item.short_desc.data.take 140).length = 140
    rw [List.length_take]
    exact min_eq_left h

/-- Witness for C7 at a concrete input: a 200-character description renders
as exactly 140 characters. -/
theorem watchlist_truncation_witness :
    (strTake (⟨List.replicate 200 'x'⟩ : String) 140).length = 140 :=
  (watchlist_truncation ⟨"CVE-2024-0001", none, false,
    ⟨List.replicate 200 'x'⟩⟩).2.2.2
    (by show (140 : Nat) ≤ (List.replicate 200 'x').length
        rw [List.length_replicate]
        omega)

/-! ## Export sinks (ti_run.py lines 310-421) and the end of run_weekly

Paths are component lists. The model keeps just what the export code
observes: which paths exist, and which of those are regular files (the rest
being directories). `Path.mkdir(parents=True, exist_ok=True)` succeeds
unless the path or one of its ancestors already exists as a regular file,
in which case Python raises (`FileExistsError` / `NotADirectoryError`) —
and neither export function nor `run_weekly` catches anything. -/

/-- The filesystem as the export code sees it. -/
structure ExportFS where
  files : List (List String)
  dirs : List (List String)
deriving DecidableEq

/-- `Path.exists()`: true for a file or a directory at that path. -/
def pathExists (fs : ExportFS) (p : List String) : Bool :=
  decide (p ∈ fs.files) || decide (p ∈ fs.dirs)

/-- `Path.mkdir(parents=True, exist_ok=True)`: creates the directory and
any missing ancestors; raises exactly when the path itself or one of its
ancestors already exists as a regular file. -/
def mkdirParentsOk (fs : ExportFS) (p : List String) :
    Except String ExportFS :=
  if p.inits.any (fun q => decide (q ∈ fs.files)) then
    Except.error "NotADirectoryError"
  else Except.ok { fs with dirs := p.inits ++ fs.dirs }

/-- What one export call came to. -/
inductive ExportOutcome where
  | skipped (msg : String)
  | exported
  | raised (msg : String)
deriving Repr, DecidableEq

/-- `export_to_obsidian(root, brief_path)` (lines 311-351): skip (logged)
when `BASTION_OBSIDIAN_VAULT` is unset or empty; skip with a warning when
the vault path does not exist; otherwise `mkdir` the briefs directory under
the vault — `vault_root.exists()` accepts a regular file, and the
subsequent `dest_dir.mkdir(parents=True, exist_ok=True)` then raises,
uncaught. On a successful `mkdir` the copy and hub write succeed. -/
def export_to_obsidian (vaultEnv : Option (List String)) (fs : ExportFS) :
    ExportOutcome × ExportFS :=
  match vaultEnv with
  | none => (ExportOutcome.skipped "BASTION_OBSIDIAN_VAULT not set", fs)
  | some vault =>
    if pathExists fs vault = false then
      (ExportOutcome.skipped "vault not found", fs)
    else
      match mkdirParentsOk fs
          (vault ++ ["Threat-Brain", "Bastion Codex", "Briefs"]) with
      | Except.error e => (ExportOutcome.raised e, fs)
      | Except.ok fs2 => (ExportOutcome.exported, fs2)

/-- `export_to_astro_blog(root, brief_path)` (lines 361-421): skip (logged)
when `BASTION_ASTRO_SITE_ROOT` is unset or empty; otherwise `mkdir` the
blog directory (no existence check at all on the site root) and write the
post. -/
def export_to_astro_blog (siteRootEnv : Option (List String))
    (blogSubdir : List String) (fs : ExportFS) : ExportOutcome × ExportFS :=
  match siteRootEnv with
  | none => (ExportOutcome.skipped "BASTION_ASTRO_SITE_ROOT not set", fs)
  | some siteRoot =>
    match mkdirParentsOk fs (siteRoot ++ blogSubdir) with
    | Except.error e => (ExportOutcome.raised e, fs)
    | Except.ok fs2 => (ExportOutcome.exported, fs2)

/-- The overall outcome of the run as reported by the process. -/
inductive RunResult where
  | success
  | failed (msg : String)
deriving Repr, DecidableEq

/-- The export stage ending `run_weekly` (lines 109-111): the two export
calls run inline with no exception handling, so an exception raised inside
either one propagates and aborts the whole run. -/
def run_weekly_exports (vaultEnv siteRootEnv : Option (List String))
    (blogSubdir : List String) (fs : ExportFS) : RunResult :=
  match export_to_obsidian vaultEnv fs with
  | (ExportOutcome.raised e, _) => RunResult.failed e
  | (_, fs2) =>
    match export_to_astro_blog siteRootEnv blogSubdir fs2 with
    | (ExportOutcome.raised e, _) => RunResult.failed e
    | _ => RunResult.success

/-- C8 (refuting evaluation): with `BASTION_OBSIDIAN_VAULT` pointing at an
existing path that is a regular file — a misconfigured sink — the export
raises `NotADirectoryError` and, there being no exception handling in
`run_weekly`, the run fails rather than reporting success. Unconfigured and
unreachable sinks, by contrast, are skipped and leave the run successful. -/
theorem export_misconfigured_aborts_run :
    (export_to_obsidian (some ["vault.md"])
        ⟨[["vault.md"]], []⟩).1 = ExportOutcome.raised "NotADirectoryError" ∧
    run_weekly_exports (some ["vault.md"]) none ["src", "content", "blog"]
        ⟨[["vault.md"]], []⟩ = RunResult.failed "NotADirectoryError" ∧
    run_weekly_exports none none ["src", "content", "blog"]
        ⟨[["vault.md"]], []⟩ = RunResult.success ∧
    run_weekly_exports (some ["missing-vault"]) none ["src", "content", "blog"]
        ⟨[["vault.md"]], []⟩ = RunResult.success := by
  refine ⟨by decide, by decide, by decide, by decide⟩

end BastionCodex
